import Mathlib

/-!
Verification of the FastAPI + Supabase books backend (`src/backend/app.py`).

The handler layer is embedded shallowly: the remote "books" table is a
`List Book`, each HTTP handler is a pure function from the table state and
its request parameters to a `HandlerResult`, which records the HTTP
response, the table state after the request, and the trace of remote calls
the handler issued (in order).  Identity of the authenticated caller
(`current_user.id`) and the id the remote store assigns on insert are
passed as explicit parameters, as is the timestamp string that in the
source is produced by `datetime.now(timezone.utc).isoformat()`.
-/

set_option linter.unusedVariables false

namespace FastapiSupabase

/-- A row of the remote `books` table.  `user_id` and `updated_at` are
nullable columns (a row inserted without them holds NULL). -/
structure Book where
  id : String
  name : String
  description : Option String
  user_id : Option String
  updated_at : Option String
deriving DecidableEq, Repr

/-- Request body schema `BookIn` after validation: `name : str` (required,
`max_length=100`), `description : Optional[str] = None`. -/
structure BookIn where
  name : String
  description : Option String
deriving DecidableEq, Repr

/-- Pydantic validation of the `BookIn` body: `name` is declared
`Field(..., max_length=100)` — required, at most 100 characters, with no
minimum length — and `description` is optional.  `none` for the `name`
argument models a body in which the field is missing. -/
def bookInValidate (name : Option String) (description : Option String) : Option BookIn :=
  match name with
  | none => none
  | some n => if n.length ≤ 100 then some ⟨n, description⟩ else none

/-- The dict passed to a remote insert or update: the keys it sets.
`book.model_dump()` yields `{name, description}`; keys absent from the
payload are left NULL on insert / unchanged on update. -/
structure InsertPayload where
  name : String
  description : Option String
  user_id : Option String
  updated_at : Option String
deriving DecidableEq, Repr

/-- `book.model_dump()`: only `name` and `description` are present. -/
def model_dump (book : BookIn) : InsertPayload :=
  { name := book.name, description := book.description, user_id := none, updated_at := none }

/-- The update dict of `update_book`: `book.model_dump()` plus
`updated_at`. -/
structure UpdatePayload where
  name : String
  description : Option String
  updated_at : String
deriving DecidableEq, Repr

/-- A remote call issued by a handler, in the order the source issues it. -/
inductive RemoteOp where
  | selectNameEq (name : String) (lim : Nat)
  | selectUserEq (user_id : String) (lim off : Int)
  | insert (payload : InsertPayload)
  | updateMatch (payload : UpdatePayload) (id : String) (user_id : String)
  | deleteEq (id : String) (user_id : String)
deriving DecidableEq, Repr

/-- `fastapi.HTTPException(status_code, detail)`. -/
structure HTTPException where
  status_code : Nat
  detail : String
deriving DecidableEq, Repr

/-- Outcome of one handler invocation: the HTTP response (`.error` is a
raised `HTTPException`), the remote table state after the request, and the
remote calls issued. -/
structure HandlerResult (α : Type) where
  response : Except HTTPException α
  db : List Book
  trace : List RemoteOp
deriving Repr

/-- Remote semantics of `tbl.select("name").eq("name", n).limit(1)`:
the rows whose `name` column equals `n`, truncated to one row (only
emptiness of the result is consulted by the handlers). -/
def selectNameEq (db : List Book) (n : String) (lim : Nat) : List Book :=
  (db.filter (fun b => b.name == n)).take lim

/-- Remote semantics of
`tbl.select("*").eq("user_id", uid).limit(lim).offset(off)`: rows whose
`user_id` equals `uid`, with offset and limit applied (a negative limit or
offset is clamped to 0 — the remote never returns rows for them). -/
def executeUserSelect (db : List Book) (uid : String) (lim off : Int) : List Book :=
  (((db.filter (fun b => b.user_id == some uid)).drop off.toNat).take lim.toNat)

/-- The row the remote store creates from an insert payload: the store
assigns the fresh id `genId`; keys absent from the payload are NULL. -/
def rowOfPayload (p : InsertPayload) (genId : String) : Book :=
  { id := genId, name := p.name, description := p.description,
    user_id := p.user_id, updated_at := p.updated_at }

/-- In-place effect of the update payload on a matched row: sets `name`,
`description` and `updated_at`; `id` and `user_id` are untouched. -/
def applyUpdate (p : UpdatePayload) (b : Book) : Book :=
  { b with name := p.name, description := p.description, updated_at := some p.updated_at }

/-- The match predicate of `update_book`'s
`.match({"id": str(book_id), "user_id": current_user.id})` and of
`delete_book`'s `.eq("id", ...).eq("user_id", ...)`. -/
def matchesIdUser (book_id uid : String) (b : Book) : Bool :=
  b.id == book_id && b.user_id == some uid

/-- External auth service user object (opaque; only its presence and `id`
matter to the handlers). -/
structure SupabaseUser where
  id : String
deriving DecidableEq, Repr

/-- External auth session: carries the access token. -/
structure SupabaseSession where
  access_token : String
deriving DecidableEq, Repr

/-- Response of `sp.auth.sign_in_with_password`: possibly a user object
and possibly a session. -/
structure AuthResponse where
  user : Option SupabaseUser
  session : Option SupabaseSession
deriving DecidableEq, Repr

/-- `POST /login`: the remote auth response is a parameter (the remote
service is out of scope).  If `resp.user` is set, the access token is
taken from `resp.session` when present (`None` otherwise) and returned;
otherwise `HTTPException(400, "Invalid username or password")` is
raised. -/
def login (resp : AuthResponse) : Except HTTPException (Option String) :=
  match resp.user with
  | some _ =>
      let access_token : Option String :=
        match resp.session with
        | some s => some s.access_token
        | none => none
      .ok access_token
  | none => .error ⟨400, "Invalid username or password"⟩

/-- `GET /book` (`list_book`): computes `offset = (page - 1) * limit` and
issues one select on `books` filtered to `user_id = current_user.id` with
that limit and offset, returning `resp.data` unchanged. -/
def list_book (db : List Book) (current_user_id : String) (page limit : Int) :
    HandlerResult (List Book) :=
  let offset := (page - 1) * limit
  let respData := executeUserSelect db current_user_id limit offset
  { response := .ok respData, db := db,
    trace := [RemoteOp.selectUserEq current_user_id limit offset] }

/-- `POST /book` (`create_book`): guard-select on `name` (global, not
user-scoped); on a hit raises `HTTPException(400, "Book already exists")`.
Otherwise the source builds `data = book.model_dump()`,
sets `data["user_id"] = current_user.id`, but then passes
`book.model_dump()` — not `data` — to `tbl.insert(...)`, so the inserted
payload carries no `user_id`.  Returns `resp.data[0]` on success, raises
`HTTPException(400, "Something went wrong")` if the insert returned no
data. -/
def create_book (db : List Book) (book : BookIn) (current_user_id : String) (genId : String) :
    HandlerResult Book :=
  let guardData := selectNameEq db book.name 1
  let guardTrace := [RemoteOp.selectNameEq book.name 1]
  if guardData.isEmpty = false then
    { response := .error ⟨400, "Book already exists"⟩, db := db, trace := guardTrace }
  else
    let data := { model_dump book with user_id := some current_user_id }
    let payload := model_dump book
    let row := rowOfPayload payload genId
    let db' := db ++ [row]
    let respData := [row]
    match respData with
    | r :: _ =>
        { response := .ok r, db := db', trace := guardTrace ++ [RemoteOp.insert payload] }
    | [] =>
        { response := .error ⟨400, "Something went wrong"⟩, db := db',
          trace := guardTrace ++ [RemoteOp.insert payload] }

/-- `PUT /book/{book_id}` (`update_book`): same global name guard as
creation; on passing it, issues an update of
`{name, description, updated_at}` matched on both `id = book_id` and
`user_id = current_user.id`.  Returns `{}` (modelled `.ok ()`) when the
remote reports affected rows, else raises
`HTTPException(404, "Book not found")`.  The `now` parameter stands for
`datetime.now(timezone.utc).isoformat()`. -/
def update_book (db : List Book) (book_id : String) (book : BookIn)
    (current_user_id : String) (now : String) : HandlerResult Unit :=
  let guardData := selectNameEq db book.name 1
  let guardTrace := [RemoteOp.selectNameEq book.name 1]
  if guardData.isEmpty = false then
    { response := .error ⟨400, "Book already exists"⟩, db := db, trace := guardTrace }
  else
    let data : UpdatePayload :=
      { name := book.name, description := book.description, updated_at := now }
    let matched := db.filter (matchesIdUser book_id current_user_id)
    let db' := db.map (fun b =>
      if matchesIdUser book_id current_user_id b then applyUpdate data b else b)
    let respData := matched.map (applyUpdate data)
    let trace := guardTrace ++ [RemoteOp.updateMatch data book_id current_user_id]
    if respData.isEmpty = false then
      { response := .ok (), db := db', trace := trace }
    else
      { response := .error ⟨404, "Book not found"⟩, db := db', trace := trace }

/-- `DELETE /book/{book_id}` (`delete_book`): issues a delete matched on
`id = book_id` and `user_id = current_user.id`; returns `{}` when rows
were deleted, else raises `HTTPException(404, "Book not found")`. -/
def delete_book (db : List Book) (book_id : String) (current_user_id : String) :
    HandlerResult Unit :=
  let deleted := db.filter (matchesIdUser book_id current_user_id)
  let db' := db.filter (fun b => !(matchesIdUser book_id current_user_id b))
  let trace := [RemoteOp.deleteEq book_id current_user_id]
  if deleted.isEmpty = false then
    { response := .ok (), db := db', trace := trace }
  else
    { response := .error ⟨404, "Book not found"⟩, db := db', trace := trace }

/-! ### Helper lemmas -/

/-- A row of the table with the requested name makes the guard select
non-empty. -/
lemma selectNameEq_not_empty {db : List Book} {b : Book} {n : String}
    (hmem : b ∈ db) (hname : b.name = n) :
    (selectNameEq db n 1).isEmpty = false := by
  unfold selectNameEq
  have hb : b ∈ db.filter (fun x => x.name == n) :=
    List.mem_filter.mpr ⟨hmem, by simp [hname]⟩
  cases hf : db.filter (fun x => x.name == n) with
  | nil => rw [hf] at hb; cases hb
  | cons x xs => simp [hf]

/-- Every row of the user-scoped select result carries the requested
`user_id`. -/
lemma mem_executeUserSelect {db : List Book} {uid : String} {lim off : Int} {b : Book}
    (hb : b ∈ executeUserSelect db uid lim off) :
    b ∈ db ∧ b.user_id = some uid := by
  unfold executeUserSelect at hb
  have h2 : b ∈ db.filter (fun x => x.user_id == some uid) :=
    List.drop_subset _ _ (List.take_subset _ _ hb)
  have h3 := List.mem_filter.mp h2
  exact ⟨h3.1, eq_of_beq h3.2⟩

/-- A table in which no row carries the requested name makes the guard
select empty. -/
lemma selectNameEq_empty {db : List Book} {n : String}
    (h : ∀ b ∈ db, b.name ≠ n) : (selectNameEq db n 1).isEmpty = true := by
  unfold selectNameEq
  have hf : db.filter (fun x => x.name == n) = [] := by
    apply List.filter_eq_nil_iff.mpr
    intro a ha
    simp [h a ha]
  simp [hf]

/-- When no row matches both the id and the caller, the remote update
reports no affected rows and `update_book` raises 404 (assuming the name
guard passes, so execution reaches the update). -/
lemma update_book_no_match {db : List Book} {bid : String} {bk : BookIn} {uid now : String}
    (hguard : ∀ b ∈ db, b.name ≠ bk.name)
    (hmatch : ∀ b ∈ db, matchesIdUser bid uid b = false) :
    (update_book db bid bk uid now).response = .error ⟨404, "Book not found"⟩ := by
  have hg := selectNameEq_empty hguard
  have hm : db.filter (matchesIdUser bid uid) = [] := by
    apply List.filter_eq_nil_iff.mpr
    intro a ha
    simp [hmatch a ha]
  simp [update_book, hg, hm]

/-- When no row matches both the id and the caller, the remote delete
reports no affected rows and `delete_book` raises 404. -/
lemma delete_book_no_match {db : List Book} {bid uid : String}
    (hmatch : ∀ b ∈ db, matchesIdUser bid uid b = false) :
    (delete_book db bid uid).response = .error ⟨404, "Book not found"⟩ := by
  have hm : db.filter (matchesIdUser bid uid) = [] := by
    apply List.filter_eq_nil_iff.mpr
    intro a ha
    simp [hmatch a ha]
  simp [delete_book, hm]

/-! ### Claim theorems -/

/-- C1: the spec says `create_book` inserts a row whose `user_id` equals
`current_user.id`, but the code builds the `data` dict with `user_id` and
then passes `book.model_dump()` to `tbl.insert(...)` instead, so the
insert payload carries no `user_id` and the created row's `user_id` is
NULL.  Evaluated at the failing input (empty table, user `U1`, body
`{name: "Dune", description: "sci-fi"}`): the issued insert payload and
the returned row both have `user_id = none`, not `some "U1"`. -/
theorem create_book_inserts_without_user_id :
    (create_book [] ⟨"Dune", some "sci-fi"⟩ "U1" "b1").response =
      .ok ⟨"b1", "Dune", some "sci-fi", none, none⟩ ∧
    (create_book [] ⟨"Dune", some "sci-fi"⟩ "U1" "b1").trace =
      [RemoteOp.selectNameEq "Dune" 1,
       RemoteOp.insert ⟨"Dune", some "sci-fi", none, none⟩] ∧
    (create_book [] ⟨"Dune", some "sci-fi"⟩ "U1" "b1").db =
      [⟨"b1", "Dune", some "sci-fi", none, none⟩] :=
  ⟨rfl, rfl, rfl⟩

/-- C5 counterexample: the claim says an empty `name` is rejected, but the
schema only declares `max_length=100` with no minimum length, so the
empty string passes validation. -/
theorem bookInValidate_accepts_empty_name :
    bookInValidate (some "") none = some ⟨"", none⟩ := rfl

/-- C5 (amended): validation accepts the `name` field exactly when it is
present and at most 100 characters long; there is no non-emptiness
requirement. -/
theorem bookInValidate_accepts_iff :
    ∀ (name : Option String) (d : Option String),
      (bookInValidate name d).isSome = true ↔
        ∃ n, name = some n ∧ n.length ≤ 100 := by
  intro name d
  cases name with
  | none => simp [bookInValidate]
  | some n =>
      by_cases h : n.length ≤ 100 <;> simp [bookInValidate, h]

/-- C6: `login` succeeds with the access token drawn from the session
(`none` when the session is absent) exactly when the remote auth response
contains a user object, and raises
`HTTPException(400, "Invalid username or password")` exactly when it does
not, whatever the rest of the response looks like. -/
theorem login_user_decides_outcome :
    ∀ resp : AuthResponse,
      (login resp = .ok (resp.session.map SupabaseSession.access_token) ↔
        resp.user.isSome = true) ∧
      (login resp = .error ⟨400, "Invalid username or password"⟩ ↔
        resp.user = none) := by
  intro resp
  cases hu : resp.user <;> cases hs : resp.session <;>
    simp [login, hu, hs]

/-- C8: for every integer `page` and `limit` (zero and negative values
included — nothing rejects them), `list_book` issues exactly one select,
filtered to `user_id = current_user.id` with the given `limit` and offset
`(page - 1) * limit`, leaves the table unchanged, and returns the remote
rows unchanged (every returned row is a row of the table). -/
theorem list_book_offset_and_single_select :
    ∀ (db : List Book) (uid : String) (page limit : Int),
      (list_book db uid page limit).trace =
        [RemoteOp.selectUserEq uid limit ((page - 1) * limit)] ∧
      (list_book db uid page limit).response =
        .ok (executeUserSelect db uid limit ((page - 1) * limit)) ∧
      (list_book db uid page limit).db = db ∧
      ∀ b ∈ executeUserSelect db uid limit ((page - 1) * limit), b ∈ db := by
  intro db uid page limit
  refine ⟨rfl, rfl, rfl, ?_⟩
  intro b hb
  exact (mem_executeUserSelect hb).1

/-- C8 witness: at a concrete table, user and pagination values, the
returned row is a row of the table. -/
theorem list_book_offset_and_single_select_witness :
    (⟨"b1", "Dune", none, some "U1", none⟩ : Book) ∈
      ([⟨"b1", "Dune", none, some "U1", none⟩] : List Book) :=
  (list_book_offset_and_single_select [⟨"b1", "Dune", none, some "U1", none⟩] "U1" 1 10).2.2.2
    ⟨"b1", "Dune", none, some "U1", none⟩ (by decide)

/-- C2: `list_book` is user-scoped for every pagination value: any row
whose `user_id` is not the caller's id — in particular any book of a
different user A — is never in the returned list, and every returned
row carries the caller's `user_id`. -/
theorem list_book_never_returns_other_users_books :
    ∀ (db : List Book) (uidB : String) (page limit : Int) (bA : Book) (l : List Book),
      bA.user_id ≠ some uidB →
      (list_book db uidB page limit).response = .ok l →
      bA ∉ l ∧ ∀ b ∈ l, b.user_id = some uidB := by
  intro db uidB page limit bA l hA hresp
  have hl : executeUserSelect db uidB limit ((page - 1) * limit) = l := by
    simpa [list_book] using hresp
  subst hl
  constructor
  · intro hmem
    exact hA (mem_executeUserSelect hmem).2
  · intro b hb
    exact (mem_executeUserSelect hb).2

/-- C2 witness: with one book of user A and one of user B in the table,
the list B receives contains only B's book and not A's. -/
theorem list_book_never_returns_other_users_books_witness :
    (⟨"b1", "Dune", none, some "A", none⟩ : Book) ∉
      ([⟨"b2", "Emma", none, some "B", none⟩] : List Book) ∧
    ∀ b ∈ ([⟨"b2", "Emma", none, some "B", none⟩] : List Book), b.user_id = some "B" :=
  list_book_never_returns_other_users_books
    [⟨"b1", "Dune", none, some "A", none⟩, ⟨"b2", "Emma", none, some "B", none⟩]
    "B" 1 10 ⟨"b1", "Dune", none, some "A", none⟩
    [⟨"b2", "Emma", none, some "B", none⟩] (by decide) rfl

/-- C3: when any row with the requested name exists — owned by any user,
not only the caller — both `create_book` and `update_book` stop with
`HTTPException(400, "Book already exists")` and their trace holds only
the guard select: no insert or update was issued. -/
theorem duplicate_name_guard_is_global :
    ∀ (db : List Book) (bk : BookIn) (uid gid bid now : String) (b : Book),
      b ∈ db → b.name = bk.name →
      (create_book db bk uid gid).response = .error ⟨400, "Book already exists"⟩ ∧
      (create_book db bk uid gid).trace = [RemoteOp.selectNameEq bk.name 1] ∧
      (update_book db bid bk uid now).response = .error ⟨400, "Book already exists"⟩ ∧
      (update_book db bid bk uid now).trace = [RemoteOp.selectNameEq bk.name 1] := by
  intro db bk uid gid bid now b hmem hname
  have hg := selectNameEq_not_empty hmem hname
  refine ⟨?_, ?_, ?_, ?_⟩ <;> simp [create_book, update_book, hg]

/-- C3 witness: user B creating or renaming to `"Dune"` while user A owns
a book named `"Dune"` gets the duplicate-name rejection. -/
theorem duplicate_name_guard_is_global_witness :
    (create_book [⟨"b1", "Dune", none, some "A", none⟩] ⟨"Dune", none⟩ "B" "g").response =
      .error ⟨400, "Book already exists"⟩ ∧
    (create_book [⟨"b1", "Dune", none, some "A", none⟩] ⟨"Dune", none⟩ "B" "g").trace =
      [RemoteOp.selectNameEq "Dune" 1] ∧
    (update_book [⟨"b1", "Dune", none, some "A", none⟩] "b9" ⟨"Dune", none⟩ "B" "t").response =
      .error ⟨400, "Book already exists"⟩ ∧
    (update_book [⟨"b1", "Dune", none, some "A", none⟩] "b9" ⟨"Dune", none⟩ "B" "t").trace =
      [RemoteOp.selectNameEq "Dune" 1] :=
  duplicate_name_guard_is_global [⟨"b1", "Dune", none, some "A", none⟩] ⟨"Dune", none⟩
    "B" "g" "b9" "t" ⟨"b1", "Dune", none, some "A", none⟩ (by decide) rfl

/-- C4: when every row carrying the requested id belongs to a user other
than the caller — which also covers the case of no such row at all —
`update_book` (name guard passing) and `delete_book` raise
`HTTPException(404, "Book not found")`, and the very same responses arise
on the table with every such row removed: the caller cannot distinguish
a foreign-owned book from an absent one. -/
theorem not_found_hides_ownership :
    ∀ (db : List Book) (bid : String) (bk : BookIn) (uid now : String),
      (∀ b ∈ db, b.name ≠ bk.name) →
      (∀ b ∈ db, b.id = bid → b.user_id ≠ some uid) →
      (update_book db bid bk uid now).response = .error ⟨404, "Book not found"⟩ ∧
      (delete_book db bid uid).response = .error ⟨404, "Book not found"⟩ ∧
      (update_book (db.filter (fun b => !(b.id == bid))) bid bk uid now).response =
        .error ⟨404, "Book not found"⟩ ∧
      (delete_book (db.filter (fun b => !(b.id == bid))) bid uid).response =
        .error ⟨404, "Book not found"⟩ := by
  intro db bid bk uid now hguard hown
  have hmatch : ∀ b ∈ db, matchesIdUser bid uid b = false := by
    intro b hb
    unfold matchesIdUser
    by_cases hid : b.id = bid
    · have hu := hown b hb hid
      simp [hid, hu]
    · simp [hid]
  have hsub : ∀ b ∈ db.filter (fun b => !(b.id == bid)), b ∈ db :=
    fun b hb => (List.mem_filter.mp hb).1
  exact ⟨update_book_no_match hguard hmatch, delete_book_no_match hmatch,
    update_book_no_match (fun b hb => hguard b (hsub b hb))
      (fun b hb => hmatch b (hsub b hb)),
    delete_book_no_match (fun b hb => hmatch b (hsub b hb))⟩

/-- C4 witness: user B updating or deleting A's book `b1` gets 404, and
gets the identical 404 when the book is absent from the table. -/
theorem not_found_hides_ownership_witness :
    (update_book [⟨"b1", "Dune", none, some "A", none⟩] "b1" ⟨"Other", none⟩ "B" "t").response =
      .error ⟨404, "Book not found"⟩ ∧
    (delete_book [⟨"b1", "Dune", none, some "A", none⟩] "b1" "B").response =
      .error ⟨404, "Book not found"⟩ ∧
    (update_book (([⟨"b1", "Dune", none, some "A", none⟩] : List Book).filter
        (fun b => !(b.id == "b1"))) "b1" ⟨"Other", none⟩ "B" "t").response =
      .error ⟨404, "Book not found"⟩ ∧
    (delete_book (([⟨"b1", "Dune", none, some "A", none⟩] : List Book).filter
        (fun b => !(b.id == "b1"))) "b1" "B").response =
      .error ⟨404, "Book not found"⟩ :=
  not_found_hides_ownership [⟨"b1", "Dune", none, some "A", none⟩] "b1" ⟨"Other", none⟩
    "B" "t" (by decide) (by decide)

/-- C7: when the name guard passes and the caller owns a row with the
requested id, `update_book` succeeds, the issued update is matched on
both `id = book_id` and `user_id = current_user.id`, its payload is
exactly `{name, description, updated_at := now}` (where `now` stands for
the `datetime.now(timezone.utc).isoformat()` timestamp computed by this
layer), and the resulting table rewrites exactly the rows matching both
keys, leaving every other row unchanged. -/
theorem update_book_scoped_write_and_stamp :
    ∀ (db : List Book) (bid : String) (bk : BookIn) (uid now : String),
      (∀ b ∈ db, b.name ≠ bk.name) →
      (∃ b ∈ db, b.id = bid ∧ b.user_id = some uid) →
      (update_book db bid bk uid now).response = .ok () ∧
      (update_book db bid bk uid now).trace =
        [RemoteOp.selectNameEq bk.name 1,
         RemoteOp.updateMatch ⟨bk.name, bk.description, now⟩ bid uid] ∧
      (update_book db bid bk uid now).db =
        db.map (fun b => if matchesIdUser bid uid b
          then applyUpdate ⟨bk.name, bk.description, now⟩ b else b) := by
  intro db bid bk uid now hguard hex
  have hg := selectNameEq_empty hguard
  obtain ⟨b, hb, hid, hown⟩ := hex
  have hbm : b ∈ db.filter (matchesIdUser bid uid) :=
    List.mem_filter.mpr ⟨hb, by simp [matchesIdUser, hid, hown]⟩
  have hrespData :
      ((db.filter (matchesIdUser bid uid)).map
        (applyUpdate ⟨bk.name, bk.description, now⟩)).isEmpty = false := by
    cases hf : db.filter (matchesIdUser bid uid) with
    | nil => rw [hf] at hbm; cases hbm
    | cons x xs => simp
  refine ⟨?_, ?_, ?_⟩ <;> simp [update_book, hg, hrespData]

/-- C7 witness: owner U1 renames their book `b1` to `"Dune2"`; the call
succeeds and the table holds the rewritten row. -/
theorem update_book_scoped_write_and_stamp_witness :
    (update_book [⟨"b1", "Dune", some "old", some "U1", none⟩] "b1"
        ⟨"Dune2", some "new"⟩ "U1" "t1").response = .ok () ∧
    (update_book [⟨"b1", "Dune", some "old", some "U1", none⟩] "b1"
        ⟨"Dune2", some "new"⟩ "U1" "t1").trace =
      [RemoteOp.selectNameEq "Dune2" 1,
       RemoteOp.updateMatch ⟨"Dune2", some "new", "t1"⟩ "b1" "U1"] ∧
    (update_book [⟨"b1", "Dune", some "old", some "U1", none⟩] "b1"
        ⟨"Dune2", some "new"⟩ "U1" "t1").db =
      ([⟨"b1", "Dune", some "old", some "U1", none⟩] : List Book).map
        (fun b => if matchesIdUser "b1" "U1" b
          then applyUpdate ⟨"Dune2", some "new", "t1"⟩ b else b) :=
  update_book_scoped_write_and_stamp [⟨"b1", "Dune", some "old", some "U1", none⟩]
    "b1" ⟨"Dune2", some "new"⟩ "U1" "t1" (by decide) (by decide)

/-- C9: whenever `create_book` or `update_book` answers with the
duplicate-name rejection, its trace holds only the guard select — no
insert or update was issued — and the table state is unchanged. -/
theorem duplicate_rejected_before_any_write :
    ∀ (db : List Book) (bk : BookIn) (uid gid bid now : String),
      ((create_book db bk uid gid).response = .error ⟨400, "Book already exists"⟩ →
        (create_book db bk uid gid).trace = [RemoteOp.selectNameEq bk.name 1] ∧
        (create_book db bk uid gid).db = db) ∧
      ((update_book db bid bk uid now).response = .error ⟨400, "Book already exists"⟩ →
        (update_book db bid bk uid now).trace = [RemoteOp.selectNameEq bk.name 1] ∧
        (update_book db bid bk uid now).db = db) := by
  intro db bk uid gid bid now
  cases hgb : (selectNameEq db bk.name 1).isEmpty with
  | false =>
      refine ⟨fun _ => ⟨?_, ?_⟩, fun _ => ⟨?_, ?_⟩⟩ <;>
        simp [create_book, update_book, hgb]
  | true =>
      refine ⟨fun h => absurd h ?_, fun h => absurd h ?_⟩
      · simp [create_book, hgb]
      · cases hm : ((db.filter (matchesIdUser bid uid)).map
            (applyUpdate ⟨bk.name, bk.description, now⟩)).isEmpty with
        | false => simp [update_book, hgb, hm]
        | true => simp [update_book, hgb, hm]

/-- C9 witness: user B's rejected duplicate create left the table exactly
as it was and issued nothing beyond the guard select. -/
theorem duplicate_rejected_before_any_write_witness :
    (create_book [⟨"b1", "Dune", none, some "A", none⟩] ⟨"Dune", none⟩ "B" "g").trace =
      [RemoteOp.selectNameEq "Dune" 1] ∧
    (create_book [⟨"b1", "Dune", none, some "A", none⟩] ⟨"Dune", none⟩ "B" "g").db =
      [⟨"b1", "Dune", none, some "A", none⟩] :=
  (duplicate_rejected_before_any_write [⟨"b1", "Dune", none, some "A", none⟩]
    ⟨"Dune", none⟩ "B" "g" "b9" "t").1 rfl

/-- C10: an `update_book` call that keeps the book's current name (for
instance to change only the description) always fails with the
duplicate-name rejection, because the global guard matches the book's own
row: a book can only be updated together with a rename to a completely
unused name. -/
theorem update_book_same_name_always_duplicate :
    ∀ (db : List Book) (b : Book) (bk : BookIn) (uid now : String),
      b ∈ db → b.user_id = some uid → bk.name = b.name →
      (update_book db b.id bk uid now).response = .error ⟨400, "Book already exists"⟩ := by
  intro db b bk uid now hmem hown hname
  have hg := selectNameEq_not_empty hmem hname.symm
  simp [update_book, hg]

/-- C10 witness: the owner of `"Dune"` changing only its description is
rejected as a duplicate of their own book. -/
theorem update_book_same_name_always_duplicate_witness :
    (update_book [⟨"b1", "Dune", some "old", some "U1", none⟩] "b1"
        ⟨"Dune", some "new"⟩ "U1" "t").response =
      .error ⟨400, "Book already exists"⟩ :=
  update_book_same_name_always_duplicate [⟨"b1", "Dune", some "old", some "U1", none⟩]
    ⟨"b1", "Dune", some "old", some "U1", none⟩ ⟨"Dune", some "new"⟩ "U1" "t"
    (by decide) rfl rfl

end FastapiSupabase
